import Mathlib

/-!
Shallow embedding of the `projects` Django app
(`src/projects/models.py`, `src/projects/views.py`, `src/projects/urls.py`).

The app is a CRUD JSON API over two records, `Project` and `Task`.  We embed:
  * JSON values (`JVal`) as produced by `json.loads` — numeric literals are
    modelled as integers only; floating point bodies are outside the scope of
    every claim;
  * Python's value coercions used by the views: `bool(...)` (truthiness),
    `int(...)`, `str(...)` and `datetime.date.fromisoformat(...)`, each with
    its Python exception behaviour (`ValueError` / `TypeError`), since the
    views catch some exception classes and not others;
  * the data model with Django's `full_clean` validation (max_length /
    blank checks, integer range) — note that `Model.objects.create(...)`
    performs **no** model validation in Django, which is visible below in the
    POST handlers;
  * the four view functions as state transformers on a `Store`
    (the relational store: project rows, task rows, autoincrement counters).

Exception messages: Python formats its messages with quotes and dict reprs;
we keep a fixed message text per error site carrying the offending string,
which is all any claim depends on.
-/

namespace ICW

/-- JSON values as returned by `json.loads`.  JSON numbers are modelled as
integers (no claim involves a fractional literal). -/
inductive JVal where
  | jnull
  | jbool (b : Bool)
  | jint (n : Int)
  | jstr (s : String)
  | jarr (xs : List JVal)
  | jobj (fs : List (String × JVal))
  deriving Repr

/-- Python exceptions that can escape the coercions / validation used by the
views.  The views catch `ValueError` and `ValidationError` in some places and
nothing in others, so the class matters. -/
inductive PyErr where
  | valueError (msg : String)
  | typeError (msg : String)
  | validationError (msg : String)
  deriving Repr, DecidableEq

/-- The message carried by an exception (`str(exc)`). -/
def PyErr.msg : PyErr → String
  | .valueError m => m
  | .typeError m => m
  | .validationError m => m

/-- Python truthiness, as used by `bool(payload[...])` in the views. -/
def pybool : JVal → Bool
  | .jnull => false
  | .jbool b => b
  | .jint n => n ≠ 0
  | .jstr s => s ≠ ""
  | .jarr xs => ¬ xs.isEmpty
  | .jobj fs => ¬ fs.isEmpty

/-- Value of a single decimal digit character. -/
def digitVal (c : Char) : Option Nat :=
  if '0' ≤ c ∧ c ≤ '9' then some (c.toNat - 48) else none

/-- Decimal digit character for a digit value (used to render dates the way
`date.isoformat()` does; only ever applied to values below ten). -/
def digitChar (n : Nat) : Char :=
  Char.ofNat (48 + n)

/-- Accumulating decimal reader: value of a digit string (None on a
non-digit). -/
def digitsValAux : Nat → List Char → Option Nat
  | acc, [] => some acc
  | acc, c :: cs =>
    match digitVal c with
    | some a => digitsValAux (acc * 10 + a) cs
    | none => none

/-- Python `int(s)` on a string: optional sign then a nonempty digit run.
(Python additionally strips whitespace and allows underscores between
digits; no claim depends on that leniency.) -/
def pyIntOfString (s : String) : Option Int :=
  match s.toList with
  | [] => none
  | '+' :: cs => if cs.isEmpty then none else (digitsValAux 0 cs).map Int.ofNat
  | '-' :: cs => if cs.isEmpty then none else (digitsValAux 0 cs).map (fun n => -(Int.ofNat n))
  | cs => (digitsValAux 0 cs).map Int.ofNat

/-- Python `int(v)` on a JSON value, with Python's exception classes:
`int` of a non-numeric string raises `ValueError`; `int` of `None`, a list
or a dict raises `TypeError`; booleans coerce to 0/1. -/
def pyint : JVal → Except PyErr Int
  | .jbool b => .ok (if b then 1 else 0)
  | .jint n => .ok n
  | .jstr s =>
    match pyIntOfString s with
    | some n => .ok n
    | none => .error (.valueError ("invalid literal for int() with base 10: " ++ s))
  | .jnull => .error (.typeError "int() argument must be a string or a number, not NoneType")
  | .jarr _ => .error (.typeError "int() argument must be a string or a number, not list")
  | .jobj _ => .error (.typeError "int() argument must be a string or a number, not dict")

/-- Python `str(v)`.  Containers are rendered in an abbreviated form: no
claim ever coerces a list or dict into a string field. -/
def pystr : JVal → String
  | .jnull => "None"
  | .jbool b => if b then "True" else "False"
  | .jint n => toString n
  | .jstr s => s
  | .jarr _ => "[...]"
  | .jobj _ => "\x7b...\x7d"

/-- A calendar date as held by `datetime.date` (year 1..9999). -/
structure PyDate where
  year : Nat
  month : Nat
  day : Nat
  deriving Repr, DecidableEq

/-- Gregorian leap-year test. -/
def isLeap (y : Nat) : Bool :=
  (y % 4 == 0 && y % 100 != 0) || y % 400 == 0

/-- Days in a month of a given year. -/
def daysInMonth (y m : Nat) : Nat :=
  if m = 2 then (if isLeap y then 29 else 28)
  else if m = 4 ∨ m = 6 ∨ m = 9 ∨ m = 11 then 30
  else 31

/-- Validity of a `PyDate`, matching `datetime.date`'s constructor checks. -/
def PyDate.validB (d : PyDate) : Bool :=
  1 ≤ d.year && d.year ≤ 9999 && 1 ≤ d.month && d.month ≤ 12 &&
    1 ≤ d.day && d.day ≤ daysInMonth d.year d.month

/-- `date.isoformat()`: `YYYY-MM-DD` with zero padding. -/
def PyDate.isoformat (d : PyDate) : String :=
  String.mk [digitChar (d.year / 1000 % 10), digitChar (d.year / 100 % 10),
             digitChar (d.year / 10 % 10), digitChar (d.year % 10), '-',
             digitChar (d.month / 10 % 10), digitChar (d.month % 10), '-',
             digitChar (d.day / 10 % 10), digitChar (d.day % 10)]

/-- `date.fromisoformat` on a string: exactly `YYYY-MM-DD`, digits zero
padded, and the result must be a real calendar date. -/
def parseDate (s : String) : Option PyDate :=
  match s.toList with
  | [y1, y2, y3, y4, c1, m1, m2, c2, d1, d2] =>
    if c1 = '-' ∧ c2 = '-' then
      match digitVal y1, digitVal y2, digitVal y3, digitVal y4,
            digitVal m1, digitVal m2, digitVal d1, digitVal d2 with
      | some a, some b, some c, some d, some e, some f, some g, some h =>
        let dt : PyDate := ⟨a * 1000 + b * 100 + c * 10 + d, e * 10 + f, g * 10 + h⟩
        if dt.validB then some dt else none
      | _, _, _, _, _, _, _, _ => none
    else none
  | _ => none

/-- `date.fromisoformat(v)` on a JSON value: `TypeError` unless the value is
a string, `ValueError` if the string is not a valid ISO-8601 date. -/
def pydate : JVal → Except PyErr PyDate
  | .jstr s =>
    match parseDate s with
    | some d => .ok d
    | none => .error (.valueError ("Invalid isoformat string: " ++ s))
  | _ => .error (.typeError "fromisoformat: argument must be str")

mutual

/-- JSON serialization of a value (as `JsonResponse` / `json.dumps` emits it;
string escaping is elided — no claim serializes a string needing escapes). -/
def JVal.render : JVal → String
  | .jnull => "null"
  | .jbool b => if b then "true" else "false"
  | .jint n => toString n
  | .jstr s => "\"" ++ s ++ "\""
  | .jarr xs => "[" ++ renderList xs ++ "]"
  | .jobj fs => "\x7b" ++ renderFields fs ++ "\x7d"

/-- Comma-separated serialization of a JSON array's elements. -/
def renderList : List JVal → String
  | [] => ""
  | [x] => x.render
  | x :: y :: xs => x.render ++ ", " ++ renderList (y :: xs)

/-- Comma-separated serialization of a JSON object's key/value pairs. -/
def renderFields : List (String × JVal) → String
  | [] => ""
  | [(k, v)] => "\"" ++ k ++ "\": " ++ v.render
  | (k, v) :: f :: fs => "\"" ++ k ++ "\": " ++ v.render ++ ", " ++ renderFields (f :: fs)

end

/-! ## Data model (`src/projects/models.py`) -/

/-- A `Project` row: `name = CharField(max_length=120)`,
`description = TextField(blank=True)`, `start_date = DateField()`,
`active = BooleanField(default=True)`, `priority = IntegerField(default=1)`. -/
structure Project where
  id : Nat
  name : String
  description : String
  start_date : PyDate
  active : Bool
  priority : Int
  deriving Repr, DecidableEq

/-- A `Task` row: `project = ForeignKey(Project, on_delete=CASCADE)`,
`title = CharField(max_length=200)`, `notes = TextField(blank=True)`,
`due_date = DateField()`, `completed = BooleanField(default=False)`,
`estimate_hours = IntegerField(default=1)`. -/
structure Task where
  id : Nat
  project_id : Nat
  title : String
  notes : String
  due_date : PyDate
  completed : Bool
  estimate_hours : Int
  deriving Repr, DecidableEq

/-- The relational store: the two tables plus their autoincrement counters. -/
structure Store where
  projects : List Project
  tasks : List Task
  nextProjectId : Nat
  nextTaskId : Nat
  deriving Repr, DecidableEq

/-- Django `IntegerField` range validators (added from the database
connection; 64-bit signed integer range). -/
def intInRange (n : Int) : Bool :=
  -(2 ^ 63) ≤ n && n < 2 ^ 63

/-- `Project.full_clean()`: `name` must be non-blank and at most 120
characters; `priority` must be in the integer field's range.  Message texts
abbreviate Django's field-keyed dict rendering. -/
def Project.fullClean (p : Project) : Except PyErr Unit :=
  if p.name = "" then .error (.validationError "name: This field cannot be blank.")
  else if 120 < p.name.length then
    .error (.validationError "name: Ensure this value has at most 120 characters.")
  else if ¬ intInRange p.priority then
    .error (.validationError "priority: value out of range.")
  else .ok ()

/-- `Task.full_clean()`: `title` must be non-blank and at most 200
characters; `estimate_hours` must be in range. -/
def Task.fullClean (t : Task) : Except PyErr Unit :=
  if t.title = "" then .error (.validationError "title: This field cannot be blank.")
  else if 200 < t.title.length then
    .error (.validationError "title: Ensure this value has at most 200 characters.")
  else if ¬ intInRange t.estimate_hours then
    .error (.validationError "estimate_hours: value out of range.")
  else .ok ()

/-! ## Store operations (the Django ORM calls made by the views) -/

/-- `get_object_or_404(Project, pk=project_id)` lookup part. -/
def findProject (s : Store) (pid : Nat) : Option Project :=
  s.projects.find? (fun p => p.id == pid)

/-- `get_object_or_404(Task, pk=task_id)` lookup part. -/
def findTask (s : Store) (tid : Nat) : Option Task :=
  s.tasks.find? (fun t => t.id == tid)

/-- `project.save()`: rewrite the row with this primary key. -/
def Store.saveProject (s : Store) (p : Project) : Store :=
  { s with projects := s.projects.map (fun q => if q.id == p.id then p else q) }

/-- `task.save()`: rewrite the row with this primary key. -/
def Store.saveTask (s : Store) (t : Task) : Store :=
  { s with tasks := s.tasks.map (fun u => if u.id == t.id then t else u) }

/-- `project.delete()`: remove the project row; `on_delete=CASCADE` on
`Task.project` removes every task row referencing it. -/
def Store.deleteProject (s : Store) (pid : Nat) : Store :=
  { s with projects := s.projects.filter (fun p => ! (p.id == pid)),
           tasks := s.tasks.filter (fun t => ! (t.project_id == pid)) }

/-- `task.delete()`: remove the task row. -/
def Store.deleteTask (s : Store) (tid : Nat) : Store :=
  { s with tasks := s.tasks.filter (fun t => ! (t.id == tid)) }

/-- `Project.objects.all().order_by("-priority", "name")`: descending
priority, ties broken by ascending name. -/
def projOrder (a b : Project) : Prop :=
  b.priority < a.priority ∨ (a.priority = b.priority ∧ a.name ≤ b.name)

instance : DecidableRel projOrder := fun a b =>
  inferInstanceAs (Decidable (b.priority < a.priority ∨ (a.priority = b.priority ∧ a.name ≤ b.name)))

instance : IsTotal Project projOrder := ⟨by
  intro a b
  rcases lt_trichotomy a.priority b.priority with h | h | h
  · exact Or.inr (Or.inl h)
  · rcases le_total a.name b.name with hn | hn
    · exact Or.inl (Or.inr ⟨h, hn⟩)
    · exact Or.inr (Or.inr ⟨h.symm, hn⟩)
  · exact Or.inl (Or.inl h)⟩

instance : IsTrans Project projOrder := ⟨by
  intro a b c hab hbc
  rcases hab with h1 | ⟨h1, hn1⟩ <;> rcases hbc with h2 | ⟨h2, hn2⟩
  · exact Or.inl (by omega)
  · exact Or.inl (by omega)
  · exact Or.inl (by omega)
  · exact Or.inr ⟨by omega, le_trans hn1 hn2⟩⟩

/-- Chronological key of a date (months and days are two decimal digits). -/
def dateKey (d : PyDate) : Nat :=
  d.year * 10000 + d.month * 100 + d.day

/-- `order_by("due_date")`: ascending due date. -/
def dueOrder (a b : Task) : Prop :=
  dateKey a.due_date ≤ dateKey b.due_date

instance : DecidableRel dueOrder := fun a b =>
  inferInstanceAs (Decidable (dateKey a.due_date ≤ dateKey b.due_date))

/-- The project list as returned by the collection GET. -/
def listProjects (s : Store) : List Project :=
  List.insertionSort projOrder s.projects

/-- `project.tasks.all().order_by("due_date")`. -/
def listTasksOf (s : Store) (pid : Nat) : List Task :=
  List.insertionSort dueOrder (s.tasks.filter (fun t => t.project_id == pid))

/-! ## Serializers (`p_to_dict`, `t_to_dict` in `src/projects/views.py`) -/

/-- Serialize a `Project` to a JSON-safe dict. -/
def p_to_dict (p : Project) : JVal :=
  .jobj [("id", .jint p.id), ("name", .jstr p.name),
         ("description", .jstr p.description),
         ("start_date", .jstr p.start_date.isoformat),
         ("active", .jbool p.active), ("priority", .jint p.priority)]

/-- Serialize a `Task` to a JSON-safe dict. -/
def t_to_dict (t : Task) : JVal :=
  .jobj [("id", .jint t.id), ("project_id", .jint t.project_id),
         ("title", .jstr t.title), ("notes", .jstr t.notes),
         ("due_date", .jstr t.due_date.isoformat),
         ("completed", .jbool t.completed),
         ("estimate_hours", .jint t.estimate_hours)]

/-! ## Requests and responses -/

/-- A request body as the views receive it.  `empty` is a falsy
`request.body`; `malformed` is a body on which `json.loads` raises
`JSONDecodeError`; `obj fs` is a body parsing to a JSON object.  (Bodies
parsing to a non-object JSON value make the views' `in`-checks behave in
type-dependent ways no claim touches; they are outside the model.) -/
inductive ReqBody where
  | empty
  | malformed
  | obj (fs : List (String × JVal))
  deriving Repr

/-- `_parse_json`: empty and malformed bodies both give `{}` — parsing never
fails the request by itself. -/
def parse_json : ReqBody → List (String × JVal)
  | .empty => []
  | .malformed => []
  | .obj fs => fs

/-- A view's outcome.  `json` is a `JsonResponse` (status and body);
`notAllowed` is `HttpResponseNotAllowed` with its allowed-method list;
`notFound` is the `Http404` raised by `get_object_or_404`; `uncaught` is an
exception that escapes the view (the framework turns it into a 500). -/
inductive HResp where
  | json (status : Nat) (body : JVal)
  | notAllowed (allowed : List String)
  | notFound
  | uncaught (e : PyErr)
  deriving Repr

/-- HTTP status of a response. -/
def HResp.status : HResp → Nat
  | .json st _ => st
  | .notAllowed _ => 405
  | .notFound => 404
  | .uncaught _ => 500

/-- `_bad_request(message)`: 400 with `{"error": message}`. -/
def bad_request (msg : String) : HResp :=
  .json 400 (.jobj [("error", .jstr msg)])

/-- The POST handlers' `except (ValueError, ValidationError)` clause:
those classes become a 400 carrying `str(exc)`; anything else (e.g.
`TypeError`) escapes the view. -/
def postCatch (e : PyErr) : HResp :=
  match e with
  | .valueError m => bad_request m
  | .validationError m => bad_request m
  | .typeError _ => .uncaught e

/-! ## View functions (`src/projects/views.py`) -/

/-- `projects_collection`: GET lists projects ordered by `-priority, name`;
POST creates a project.  `Project.objects.create` runs **no** model
validation (Django semantics), so the create persists whatever the
coercions produce; its `try` block catches `ValueError` and
`ValidationError` only. -/
def projects_collection (s : Store) (method : String) (body : ReqBody) :
    HResp × Store :=
  if method = "GET" then
    (.json 200 (.jobj [("projects", .jarr ((listProjects s).map p_to_dict))]), s)
  else if method = "POST" then
    let payload := parse_json body
    if ¬ (["name", "description", "start_date", "active", "priority"].all
            (fun k => (payload.lookup k).isSome)) then
      (bad_request "Missing required fields.", s)
    else
      -- keyword arguments are evaluated in source order inside the try block
      let name := pystr ((payload.lookup "name").getD .jnull)
      let description := pystr ((payload.lookup "description").getD (.jstr ""))
      match pydate ((payload.lookup "start_date").getD .jnull) with
      | .error e => (postCatch e, s)
      | .ok sd =>
        let active := pybool ((payload.lookup "active").getD .jnull)
        match pyint ((payload.lookup "priority").getD .jnull) with
        | .error e => (postCatch e, s)
        | .ok pr =>
          let p : Project :=
            ⟨s.nextProjectId, name, description, sd, active, pr⟩
          (.json 201 (.jobj [("project", p_to_dict p)]),
           { s with projects := s.projects ++ [p],
                    nextProjectId := s.nextProjectId + 1 })
  else (.notAllowed ["GET", "POST"], s)

/-- The PUT branch's field assignments on a project.  Fields present in the
payload are assigned (with Python coercion); absent fields keep their prior
value.  A coercion failure propagates as the raised exception — in the
source these statements sit **before** the `try` block, so the caller does
not catch it.  `start_date` is coerced before `priority`, as in the source
statement order. -/
def applyProjectPut (p : Project) (pl : List (String × JVal)) :
    Except PyErr Project := do
  let sd ← match pl.lookup "start_date" with
    | some v => pydate v
    | none => .ok p.start_date
  let pr ← match pl.lookup "priority" with
    | some v => pyint v
    | none => .ok p.priority
  .ok { id := p.id
        name := match pl.lookup "name" with
          | some v => pystr v
          | none => p.name
        description := match pl.lookup "description" with
          | some v => pystr v
          | none => p.description
        start_date := sd
        active := match pl.lookup "active" with
          | some v => pybool v
          | none => p.active
        priority := pr }

/-- The PUT branch's field assignments on a task (same shape as
`applyProjectPut`; `due_date` is coerced before `estimate_hours`). -/
def applyTaskPut (t : Task) (pl : List (String × JVal)) :
    Except PyErr Task := do
  let dd ← match pl.lookup "due_date" with
    | some v => pydate v
    | none => .ok t.due_date
  let eh ← match pl.lookup "estimate_hours" with
    | some v => pyint v
    | none => .ok t.estimate_hours
  .ok { id := t.id
        project_id := t.project_id
        title := match pl.lookup "title" with
          | some v => pystr v
          | none => t.title
        notes := match pl.lookup "notes" with
          | some v => pystr v
          | none => t.notes
        due_date := dd
        completed := match pl.lookup "completed" with
          | some v => pybool v
          | none => t.completed
        estimate_hours := eh }

/-- `data["tasks"] = [...]` on the serialized project dict. -/
def withTasks (v : JVal) (ts : List JVal) : JVal :=
  match v with
  | .jobj fs => .jobj (fs ++ [("tasks", .jarr ts)])
  | x => x

/-- `project_resource`: `get_object_or_404` runs before method dispatch.
GET returns the project with embedded tasks; PUT partially updates (its
`try` block wraps only `full_clean`/`save`, so coercion errors escape);
DELETE cascades; other methods get 405. -/
def project_resource (s : Store) (project_id : Nat) (method : String)
    (body : ReqBody) : HResp × Store :=
  match findProject s project_id with
  | none => (.notFound, s)
  | some project =>
    if method = "GET" then
      (.json 200 (.jobj [("project",
          withTasks (p_to_dict project)
            ((listTasksOf s project_id).map t_to_dict))]), s)
    else if method = "PUT" then
      match applyProjectPut project (parse_json body) with
      | .error e => (.uncaught e, s)
      | .ok p1 =>
        match p1.fullClean with
        | .error e => (bad_request e.msg, s)
        | .ok _ =>
          (.json 200 (.jobj [("project", p_to_dict p1)]), s.saveProject p1)
    else if method = "DELETE" then
      (.json 204 (.jobj []), s.deleteProject project_id)
    else (.notAllowed ["GET", "PUT", "DELETE"], s)

/-- `project_tasks_collection`: `get_object_or_404(Project, ...)` first;
GET lists the project's tasks by due date; POST creates a task whose
`project` is the URL's project (the payload holds only the other fields;
a `project_id` payload key is never read). -/
def project_tasks_collection (s : Store) (project_id : Nat) (method : String)
    (body : ReqBody) : HResp × Store :=
  match findProject s project_id with
  | none => (.notFound, s)
  | some _ =>
    if method = "GET" then
      (.json 200 (.jobj [("tasks",
          .jarr ((listTasksOf s project_id).map t_to_dict))]), s)
    else if method = "POST" then
      let payload := parse_json body
      if ¬ (["title", "notes", "due_date", "completed", "estimate_hours"].all
              (fun k => (payload.lookup k).isSome)) then
        (bad_request "Missing required fields.", s)
      else
        let title := pystr ((payload.lookup "title").getD .jnull)
        let notes := pystr ((payload.lookup "notes").getD (.jstr ""))
        match pydate ((payload.lookup "due_date").getD .jnull) with
        | .error e => (postCatch e, s)
        | .ok dd =>
          let completed := pybool ((payload.lookup "completed").getD .jnull)
          match pyint ((payload.lookup "estimate_hours").getD .jnull) with
          | .error e => (postCatch e, s)
          | .ok eh =>
            let t : Task :=
              ⟨s.nextTaskId, project_id, title, notes, dd, completed, eh⟩
            (.json 201 (.jobj [("task", t_to_dict t)]),
             { s with tasks := s.tasks ++ [t], nextTaskId := s.nextTaskId + 1 })
    else (.notAllowed ["GET", "POST"], s)

/-- `task_resource`: `get_object_or_404(Task, ...)` runs before method
dispatch; PUT partially updates (coercion errors escape, as in
`project_resource`); DELETE removes the task; every other method — GET
included — gets 405 with allowed list `["PUT", "DELETE"]`. -/
def task_resource (s : Store) (task_id : Nat) (method : String)
    (body : ReqBody) : HResp × Store :=
  match findTask s task_id with
  | none => (.notFound, s)
  | some task =>
    if method = "PUT" then
      match applyTaskPut task (parse_json body) with
      | .error e => (.uncaught e, s)
      | .ok t1 =>
        match t1.fullClean with
        | .error e => (bad_request e.msg, s)
        | .ok _ =>
          (.json 200 (.jobj [("task", t_to_dict t1)]), s.saveTask t1)
    else if method = "DELETE" then
      (.json 204 (.jobj []), s.deleteTask task_id)
    else (.notAllowed ["PUT", "DELETE"], s)

/-! ## Referential integrity invariant -/

/-- Every task row references an existing project row. -/
def refsOk (s : Store) : Prop :=
  ∀ t ∈ s.tasks, ∃ p ∈ s.projects, p.id = t.project_id

/-! ## Concrete fixtures used by witnesses and counterexamples -/

/-- A valid stored project. -/
def demoProject : Project := ⟨1, "Alpha", "", ⟨2024, 1, 1⟩, true, 3⟩

/-- A valid stored task belonging to `demoProject`. -/
def demoTask : Task := ⟨1, 1, "Write docs", "", ⟨2024, 2, 1⟩, false, 2⟩

/-- A store holding one project and one of its tasks. -/
def demoStore : Store := ⟨[demoProject], [demoTask], 2, 2⟩

/-- An empty store with fresh autoincrement counters. -/
def emptyStore : Store := ⟨[], [], 1, 1⟩

/-- A 121-character name, one over the `max_length=120` constraint. -/
def longName : String := String.mk (List.replicate 121 'a')

/-- A stored project violating the name length constraint (exactly what the
unvalidated POST of the create handler persists). -/
def badProject : Project := ⟨1, longName, "", ⟨2024, 1, 1⟩, true, 1⟩

/-- A store holding the constraint-violating project. -/
def badStore : Store := ⟨[badProject], [], 2, 1⟩

/-- The serializer's field list (a JSON object's entries). -/
def objFields : JVal → List (String × JVal)
  | .jobj fs => fs
  | _ => []

/-- The serialized project minus its `id` entry, used as a creation
payload. -/
def roundtripPayload (p : Project) : List (String × JVal) :=
  (objFields (p_to_dict p)).filter (fun kv => ! (kv.1 == "id"))

/-- The serialized body text a `JsonResponse` puts on the wire (none for
the framework-built 404/405 responses and for an uncaught exception). -/
def HResp.bodyText : HResp → Option String
  | .json _ b => some b.render
  | _ => none

/-- The task row built by the task-creation POST from the URL's project id
and the payload fields. -/
def mkNewTask (s : Store) (pid : Nat) (pl : List (String × JVal))
    (dd : PyDate) (eh : Int) : Task :=
  ⟨s.nextTaskId, pid, pystr ((List.lookup "title" pl).getD .jnull),
   pystr ((List.lookup "notes" pl).getD (.jstr "")), dd,
   pybool ((List.lookup "completed" pl).getD .jnull), eh⟩

/-! ## Helper lemmas -/

theorem digitVal_digitChar (a : Nat) (h : a < 10) :
    digitVal (digitChar a) = some a := by
  interval_cases a <;> rfl

theorem validB_bounds (d : PyDate) (h : d.validB = true) :
    1 ≤ d.year ∧ d.year ≤ 9999 ∧ 1 ≤ d.month ∧ d.month ≤ 12 ∧
      1 ≤ d.day ∧ d.day ≤ daysInMonth d.year d.month := by
  unfold PyDate.validB at h
  simp only [Bool.and_eq_true, decide_eq_true_eq] at h
  tauto

theorem digits4 (y : Nat) (h : y ≤ 9999) :
    y / 1000 % 10 * 1000 + y / 100 % 10 * 100 + y / 10 % 10 * 10 + y % 10 = y := by
  omega

theorem digits2 (m : Nat) (h : m ≤ 99) :
    m / 10 % 10 * 10 + m % 10 = m := by
  omega

theorem parseDate_isoformat (d : PyDate) (h : d.validB = true) :
    parseDate d.isoformat = some d := by
  obtain ⟨h1, h2, h3, h4, h5, h6⟩ := validB_bounds d h
  have hy := digits4 d.year (by omega)
  have hm := digits2 d.month (by omega)
  have hd : d.day ≤ 99 := by
    have : daysInMonth d.year d.month ≤ 31 := by
      unfold daysInMonth
      split <;> [split <;> omega; split <;> omega]
    omega
  have hd2 := digits2 d.day hd
  unfold parseDate PyDate.isoformat
  simp only [String.toList]
  rw [digitVal_digitChar _ (Nat.mod_lt _ (by norm_num)),
      digitVal_digitChar _ (Nat.mod_lt _ (by norm_num)),
      digitVal_digitChar _ (Nat.mod_lt _ (by norm_num)),
      digitVal_digitChar _ (Nat.mod_lt _ (by norm_num)),
      digitVal_digitChar _ (Nat.mod_lt _ (by norm_num)),
      digitVal_digitChar _ (Nat.mod_lt _ (by norm_num)),
      digitVal_digitChar _ (Nat.mod_lt _ (by norm_num)),
      digitVal_digitChar _ (Nat.mod_lt _ (by norm_num))]
  simp only [hy, hm, hd2, h]
  rfl

theorem pydate_isoformat (d : PyDate) (h : d.validB = true) :
    pydate (.jstr d.isoformat) = .ok d := by
  simp [pydate, parseDate_isoformat d h]

theorem findProject_eq_some {s : Store} {pid : Nat} {p : Project}
    (h : findProject s pid = some p) : p ∈ s.projects ∧ p.id = pid := by
  refine ⟨List.mem_of_find?_eq_some h, ?_⟩
  have := List.find?_some h
  simpa using this

theorem findTask_eq_some {s : Store} {tid : Nat} {t : Task}
    (h : findTask s tid = some t) : t ∈ s.tasks ∧ t.id = tid := by
  refine ⟨List.mem_of_find?_eq_some h, ?_⟩
  have := List.find?_some h
  simpa using this

/-- On a store whose project ids are unique, rewriting a row that was just
looked up leaves the table unchanged. -/
theorem saveProject_self {s : Store} {pid : Nat} {p : Project}
    (hnd : (s.projects.map Project.id).Nodup)
    (h : findProject s pid = some p) : s.saveProject p = s := by
  obtain ⟨hmem, _⟩ := findProject_eq_some h
  unfold Store.saveProject
  have hm : ∀ q ∈ s.projects, (if q.id == p.id then p else q) = q := by
    intro q hq
    by_cases hid : q.id = p.id
    · have := List.inj_on_of_nodup_map hnd hq hmem hid
      simp [this]
    · simp [hid]
  rw [List.map_congr_left hm, List.map_id']

/-- Same fact for tasks. -/
theorem saveTask_self {s : Store} {tid : Nat} {t : Task}
    (hnd : (s.tasks.map Task.id).Nodup)
    (h : findTask s tid = some t) : s.saveTask t = s := by
  obtain ⟨hmem, _⟩ := findTask_eq_some h
  unfold Store.saveTask
  have hm : ∀ u ∈ s.tasks, (if u.id == t.id then t else u) = u := by
    intro u hu
    by_cases hid : u.id = t.id
    · have := List.inj_on_of_nodup_map hnd hu hmem hid
      simp [this]
    · simp [hid]
  rw [List.map_congr_left hm, List.map_id']

/-- Characterization of a successful PUT field application on a project:
the id is never touched, present fields are assigned their coerced value and
absent fields keep their prior value. -/
theorem applyProjectPut_fields {p p' : Project} {pl : List (String × JVal)}
    (h : applyProjectPut p pl = .ok p') :
    p'.id = p.id ∧
    p'.name = (match pl.lookup "name" with
      | some v => pystr v
      | none => p.name) ∧
    p'.description = (match pl.lookup "description" with
      | some v => pystr v
      | none => p.description) ∧
    p'.active = (match pl.lookup "active" with
      | some v => pybool v
      | none => p.active) ∧
    (pl.lookup "start_date" = none → p'.start_date = p.start_date) ∧
    (pl.lookup "priority" = none → p'.priority = p.priority) := by
  unfold applyProjectPut at h
  cases hsd : pl.lookup "start_date" <;> simp only [hsd] at h
  case none =>
    cases hpr : pl.lookup "priority" <;> simp only [hpr] at h
    case none =>
      have h2 := Except.ok.inj h
      subst h2
      exact ⟨rfl, rfl, rfl, rfl, fun _ => rfl, fun _ => rfl⟩
    case some v =>
      cases hpi : pyint v <;> simp only [hpi] at h
      case error e => exact Except.noConfusion h
      case ok n =>
        have h2 := Except.ok.inj h
        subst h2
        exact ⟨rfl, rfl, rfl, rfl, fun _ => rfl,
          fun hc => Option.noConfusion hc⟩
  case some v =>
    cases hpd : pydate v <;> simp only [hpd] at h
    case error e => exact Except.noConfusion h
    case ok sd =>
      cases hpr : pl.lookup "priority" <;> simp only [hpr] at h
      case none =>
        have h2 := Except.ok.inj h
        subst h2
        exact ⟨rfl, rfl, rfl, rfl,
          fun hc => Option.noConfusion hc, fun _ => rfl⟩
      case some w =>
        cases hpi : pyint w <;> simp only [hpi] at h
        case error e => exact Except.noConfusion h
        case ok n =>
          have h2 := Except.ok.inj h
          subst h2
          exact ⟨rfl, rfl, rfl, rfl,
            fun hc => Option.noConfusion hc,
            fun hc => Option.noConfusion hc⟩

/-- Characterization of a successful PUT field application on a task; in
particular `project_id` is never touched, whatever the payload holds. -/
theorem applyTaskPut_fields {t t' : Task} {pl : List (String × JVal)}
    (h : applyTaskPut t pl = .ok t') :
    t'.id = t.id ∧ t'.project_id = t.project_id ∧
    t'.title = (match pl.lookup "title" with
      | some v => pystr v
      | none => t.title) ∧
    t'.notes = (match pl.lookup "notes" with
      | some v => pystr v
      | none => t.notes) ∧
    t'.completed = (match pl.lookup "completed" with
      | some v => pybool v
      | none => t.completed) ∧
    (pl.lookup "due_date" = none → t'.due_date = t.due_date) ∧
    (pl.lookup "estimate_hours" = none → t'.estimate_hours = t.estimate_hours) := by
  unfold applyTaskPut at h
  cases hdd : pl.lookup "due_date" <;> simp only [hdd] at h
  case none =>
    cases heh : pl.lookup "estimate_hours" <;> simp only [heh] at h
    case none =>
      have h2 := Except.ok.inj h
      subst h2
      exact ⟨rfl, rfl, rfl, rfl, rfl, fun _ => rfl, fun _ => rfl⟩
    case some v =>
      cases hpi : pyint v <;> simp only [hpi] at h
      case error e => exact Except.noConfusion h
      case ok n =>
        have h2 := Except.ok.inj h
        subst h2
        exact ⟨rfl, rfl, rfl, rfl, rfl, fun _ => rfl,
          fun hc => Option.noConfusion hc⟩
  case some v =>
    cases hpd : pydate v <;> simp only [hpd] at h
    case error e => exact Except.noConfusion h
    case ok dd =>
      cases heh : pl.lookup "estimate_hours" <;> simp only [heh] at h
      case none =>
        have h2 := Except.ok.inj h
        subst h2
        exact ⟨rfl, rfl, rfl, rfl, rfl,
          fun hc => Option.noConfusion hc, fun _ => rfl⟩
      case some w =>
        cases hpi : pyint w <;> simp only [hpi] at h
        case error e => exact Except.noConfusion h
        case ok n =>
          have h2 := Except.ok.inj h
          subst h2
          exact ⟨rfl, rfl, rfl, rfl, rfl,
            fun hc => Option.noConfusion hc,
            fun hc => Option.noConfusion hc⟩

/-! ## Referential integrity -/

theorem refsOk_saveProject {s : Store} (p1 : Project) (h : refsOk s) :
    refsOk (s.saveProject p1) := by
  intro t ht
  obtain ⟨q, hq, hid⟩ := h t ht
  by_cases hqq : q.id = p1.id
  · refine ⟨p1, ?_, by rw [← hqq]; exact hid⟩
    show p1 ∈ s.projects.map (fun r => if r.id == p1.id then p1 else r)
    exact List.mem_map.mpr ⟨q, hq, by simp [hqq]⟩
  · refine ⟨q, ?_, hid⟩
    show q ∈ s.projects.map (fun r => if r.id == p1.id then p1 else r)
    exact List.mem_map.mpr ⟨q, hq, by simp [hqq]⟩

theorem refsOk_saveTask {s : Store} {t1 : Task} (h : refsOk s)
    (hex : ∃ q ∈ s.projects, q.id = t1.project_id) :
    refsOk (s.saveTask t1) := by
  intro t ht
  obtain ⟨u, hu, hut⟩ := List.mem_map.mp
    (show t ∈ s.tasks.map (fun u => if u.id == t1.id then t1 else u) from ht)
  by_cases huu : u.id = t1.id
  · have : t = t1 := by rw [← hut]; simp [huu]
    subst this
    exact hex
  · have hteq : t = u := by rw [← hut]; simp [huu]
    exact hteq.symm ▸ h u hu

theorem refsOk_deleteProject {s : Store} (pid : Nat) (h : refsOk s) :
    refsOk (s.deleteProject pid) := by
  intro t ht
  rw [Store.deleteProject] at ht
  obtain ⟨hmem, hne⟩ := List.mem_filter.mp ht
  obtain ⟨q, hq, hid⟩ := h t hmem
  refine ⟨q, List.mem_filter.mpr ⟨hq, ?_⟩, hid⟩
  simpa [hid] using hne

theorem refsOk_deleteTask {s : Store} (tid : Nat) (h : refsOk s) :
    refsOk (s.deleteTask tid) := by
  intro t ht
  exact h t (List.mem_filter.mp ht).1

theorem refsOk_appendProject {s : Store} (p : Project) (n : Nat) (h : refsOk s) :
    refsOk { s with projects := s.projects ++ [p], nextProjectId := n } := by
  intro t ht
  obtain ⟨q, hq, hid⟩ := h t ht
  exact ⟨q, List.mem_append_left _ hq, hid⟩

theorem refsOk_appendTask {s : Store} {t1 : Task} (n : Nat) (h : refsOk s)
    (hex : ∃ q ∈ s.projects, q.id = t1.project_id) :
    refsOk { s with tasks := s.tasks ++ [t1], nextTaskId := n } := by
  intro t ht
  rcases List.mem_append.mp ht with hmem | hmem
  · exact h t hmem
  · have : t = t1 := by simpa using hmem
    subst this
    exact hex

theorem projects_collection_refsOk (s : Store) (m : String) (b : ReqBody)
    (h : refsOk s) : refsOk (projects_collection s m b).2 := by
  unfold projects_collection
  split
  · exact h
  split
  · dsimp only
    split
    · exact h
    split
    · exact h
    split
    · exact h
    exact refsOk_appendProject _ _ h
  · exact h

theorem project_resource_refsOk (s : Store) (pid : Nat) (m : String)
    (b : ReqBody) (h : refsOk s) : refsOk (project_resource s pid m b).2 := by
  unfold project_resource
  split
  · exact h
  split
  · exact h
  split
  · split
    · exact h
    split
    · exact h
    exact refsOk_saveProject _ h
  split
  · exact refsOk_deleteProject _ h
  · exact h

theorem project_tasks_collection_refsOk (s : Store) (pid : Nat) (m : String)
    (b : ReqBody) (h : refsOk s) :
    refsOk (project_tasks_collection s pid m b).2 := by
  unfold project_tasks_collection
  split
  · exact h
  case _ p hfind =>
    split
    · exact h
    split
    · dsimp only
      split
      · exact h
      split
      · exact h
      split
      · exact h
      refine refsOk_appendTask _ h ?_
      obtain ⟨hmem, hid⟩ := findProject_eq_some hfind
      exact ⟨p, hmem, hid⟩
    · exact h

theorem task_resource_refsOk (s : Store) (tid : Nat) (m : String)
    (b : ReqBody) (h : refsOk s) : refsOk (task_resource s tid m b).2 := by
  unfold task_resource
  split
  · exact h
  case _ task hfind =>
    split
    · split
      · exact h
      case _ t1 happly =>
        split
        · exact h
        refine refsOk_saveTask h ?_
        obtain ⟨hmem, _⟩ := findTask_eq_some hfind
        obtain ⟨_, hpidkeep, _⟩ := applyTaskPut_fields happly
        obtain ⟨q, hq, hid⟩ := h task hmem
        exact ⟨q, hq, by rw [hpidkeep]; exact hid⟩
    split
    · exact refsOk_deleteTask _ h
    · exact h

/-! ## Claims -/

/-- C1: the claim says a PUT update carrying an unparsable date string or a
non-integer-coercible priority/estimate answers 400 with the error message.
The code contradicts it: in both PUT handlers the `date.fromisoformat` /
`int` coercions run before the `try` block (which catches only
`ValidationError`), so the `ValueError` escapes the view uncaught and the
framework answers 500.  This theorem evaluates the handlers at such inputs:
the response is the uncaught exception, status 500, not a 400. -/
theorem c1_put_coercion_uncaught :
    (project_resource demoStore 1 "PUT" (.obj [("priority", .jstr "abc")])).1
      = .uncaught (.valueError "invalid literal for int() with base 10: abc") ∧
    (project_resource demoStore 1 "PUT" (.obj [("start_date", .jstr "2024-13-01")])).1
      = .uncaught (.valueError "Invalid isoformat string: 2024-13-01") ∧
    (task_resource demoStore 1 "PUT" (.obj [("estimate_hours", .jstr "many")])).1
      = .uncaught (.valueError "invalid literal for int() with base 10: many") ∧
    (task_resource demoStore 1 "PUT" (.obj [("due_date", .jstr "soon")])).1
      = .uncaught (.valueError "Invalid isoformat string: soon") ∧
    ((project_resource demoStore 1 "PUT" (.obj [("priority", .jstr "abc")])).1).status
      = 500 :=
  ⟨rfl, rfl, rfl, rfl, rfl⟩

/-- C2: the claim says an oversized create fails with a `ValidationError`
mapped to 400 and leaves the store unchanged.  The code contradicts it:
`Project.objects.create` runs no model validation, so a POST whose name has
121 characters answers 201 and persists the oversized row. -/
theorem c2_post_oversized_persisted :
    120 < longName.length ∧
    (projects_collection emptyStore "POST" (.obj
        [("name", .jstr longName), ("description", .jstr ""),
         ("start_date", .jstr "2024-01-01"), ("active", .jbool true),
         ("priority", .jint 1)])).1
      = .json 201 (.jobj [("project", p_to_dict badProject)]) ∧
    (projects_collection emptyStore "POST" (.obj
        [("name", .jstr longName), ("description", .jstr ""),
         ("start_date", .jstr "2024-01-01"), ("active", .jbool true),
         ("priority", .jint 1)])).2
      = { projects := [badProject], tasks := [], nextProjectId := 2,
          nextTaskId := 1 } :=
  ⟨by decide, rfl, rfl⟩

/-- C4: GET on the projects collection returns exactly the stored projects
(a permutation of the table), sorted by descending priority with ties broken
by ascending name, and leaves the store unchanged. -/
theorem c4_list_projects (s : Store) (b : ReqBody) :
    (projects_collection s "GET" b).1
      = .json 200 (.jobj [("projects", .jarr ((listProjects s).map p_to_dict))]) ∧
    (projects_collection s "GET" b).2 = s ∧
    (listProjects s).Perm s.projects ∧
    (listProjects s).Sorted projOrder :=
  ⟨rfl, rfl, List.perm_insertionSort _ _, List.sorted_insertionSort _ _⟩

/-- C3 counterexample: the claim says a successful DELETE answers 204 with
an empty body.  The status is right, but the handler returns
`JsonResponse(\x7b\x7d, status=204)`, so the body is the two-byte
serialization of the empty JSON object, not an empty body. -/
theorem c3_delete_body_counterexample :
    ((project_resource demoStore 1 "DELETE" .empty).1).status = 204 ∧
    ((project_resource demoStore 1 "DELETE" .empty).1).bodyText = some "\x7b\x7d" ∧
    "\x7b\x7d" ≠ "" := by
  refine ⟨rfl, ?_, by decide⟩
  have h1 : (project_resource demoStore 1 "DELETE" .empty).1
      = .json 204 (.jobj []) := rfl
  rw [h1]
  show some (JVal.render (.jobj [])) = some "\x7b\x7d"
  rw [JVal.render, renderFields]
  rfl

/-- C3 (amended): every successful DELETE of an existing project or task
answers 204 with body the empty JSON object, whose serialization is the
two bytes "\x7b\x7d" (not a zero-byte body). -/
theorem c3_delete_204 (s : Store) (pid tid : Nat) (b : ReqBody) :
    (∀ p, findProject s pid = some p →
      (project_resource s pid "DELETE" b).1 = .json 204 (.jobj [])) ∧
    (∀ t, findTask s tid = some t →
      (task_resource s tid "DELETE" b).1 = .json 204 (.jobj [])) ∧
    JVal.render (.jobj []) = "\x7b\x7d" := by
  refine ⟨?_, ?_, ?_⟩
  · intro p h
    unfold project_resource
    rw [h]
    exact rfl
  · intro t h
    unfold task_resource
    rw [h]
    exact rfl
  · rw [JVal.render, renderFields]
    rfl

/-- C3 witness: deleting the demo project and the demo task. -/
theorem c3_delete_204_witness :
    (project_resource demoStore 1 "DELETE" .empty).1 = .json 204 (.jobj []) ∧
    (task_resource demoStore 1 "DELETE" .empty).1 = .json 204 (.jobj []) :=
  ⟨(c3_delete_204 demoStore 1 1 .empty).1 demoProject rfl,
   (c3_delete_204 demoStore 1 1 .empty).2.1 demoTask rfl⟩

/-- C5: deleting an existing project removes the project row and exactly the
task rows referencing it; on a store with unique task ids, any request to
the task route for such a task id then answers 404 whatever the method.
Every handler preserves the invariant that each task references an existing
project. -/
theorem c5_cascade_delete (s : Store) (pid : Nat) (b : ReqBody) :
    (∀ p, findProject s pid = some p →
      findProject (project_resource s pid "DELETE" b).2 pid = none ∧
      (∀ t, t ∈ (project_resource s pid "DELETE" b).2.tasks ↔
        (t ∈ s.tasks ∧ t.project_id ≠ pid)) ∧
      ((s.tasks.map Task.id).Nodup →
        ∀ t ∈ s.tasks, t.project_id = pid →
          ∀ m2 b2, task_resource (project_resource s pid "DELETE" b).2 t.id m2 b2
            = (.notFound, (project_resource s pid "DELETE" b).2))) ∧
    (refsOk s → ∀ m, refsOk (projects_collection s m b).2) ∧
    (refsOk s → ∀ m pid2, refsOk (project_resource s pid2 m b).2) ∧
    (refsOk s → ∀ m pid2, refsOk (project_tasks_collection s pid2 m b).2) ∧
    (refsOk s → ∀ m tid, refsOk (task_resource s tid m b).2) := by
  refine ⟨?_, fun h m => projects_collection_refsOk s m b h,
    fun h m pid2 => project_resource_refsOk s pid2 m b h,
    fun h m pid2 => project_tasks_collection_refsOk s pid2 m b h,
    fun h m tid => task_resource_refsOk s tid m b h⟩
  intro p hp
  have hst : (project_resource s pid "DELETE" b).2 = s.deleteProject pid := by
    unfold project_resource
    rw [hp]
    exact rfl
  rw [hst]
  refine ⟨?_, ?_, ?_⟩
  · refine List.find?_eq_none.mpr ?_
    intro q hq
    have := (List.mem_filter.mp hq).2
    simpa using this
  · intro t
    constructor
    · intro ht
      have := List.mem_filter.mp ht
      refine ⟨this.1, ?_⟩
      simpa using this.2
    · intro ⟨h1, h2⟩
      exact List.mem_filter.mpr ⟨h1, by simpa using h2⟩
  · intro hnd t ht hpid m2 b2
    have hfind : findTask (s.deleteProject pid) t.id = none := by
      refine List.find?_eq_none.mpr ?_
      intro u hu
      obtain ⟨humem, hune⟩ := List.mem_filter.mp hu
      intro hbeq
      have hid : u.id = t.id := by simpa using hbeq
      have : u = t := List.inj_on_of_nodup_map hnd humem ht hid
      subst this
      rw [hpid] at hune
      simp at hune
    unfold task_resource
    rw [hfind]

/-- C5 witness: deleting the demo project empties both tables; the cascaded
task id then 404s on the task route. -/
theorem c5_cascade_delete_witness :
    findProject (project_resource demoStore 1 "DELETE" ReqBody.empty).2 1
      = none ∧
    task_resource (project_resource demoStore 1 "DELETE" ReqBody.empty).2 1
        "GET" ReqBody.empty
      = (.notFound, (project_resource demoStore 1 "DELETE" ReqBody.empty).2) ∧
    refsOk (projects_collection demoStore "GET" ReqBody.empty).2 := by
  have h := c5_cascade_delete demoStore 1 ReqBody.empty
  have h1 := h.1 demoProject rfl
  refine ⟨h1.1, h1.2.2 (by decide) demoTask (by decide) rfl "GET" ReqBody.empty, ?_⟩
  refine h.2.1 ?_ "GET"
  intro t ht
  refine ⟨demoProject, by decide, ?_⟩
  have : t = demoTask := by
    simpa [demoStore] using ht
  rw [this]
  decide

/-- C6: a PUT carrying any subset of recognized fields modifies only the
fields present in the payload: on success the stored record is the applied
update, whose field not named in the payload equals its prior value, the
record's id is untouched, and rows with other ids survive unchanged. -/
theorem c6_put_frame (s : Store) (pid tid : Nat) (pl : List (String × JVal)) :
    (∀ p p1, findProject s pid = some p → applyProjectPut p pl = .ok p1 →
      p1.fullClean = .ok () →
      project_resource s pid "PUT" (.obj pl)
          = (.json 200 (.jobj [("project", p_to_dict p1)]), s.saveProject p1) ∧
      p1.id = p.id ∧
      (pl.lookup "name" = none → p1.name = p.name) ∧
      (pl.lookup "description" = none → p1.description = p.description) ∧
      (pl.lookup "start_date" = none → p1.start_date = p.start_date) ∧
      (pl.lookup "active" = none → p1.active = p.active) ∧
      (pl.lookup "priority" = none → p1.priority = p.priority) ∧
      (∀ q ∈ s.projects, q.id ≠ p1.id → q ∈ (s.saveProject p1).projects)) ∧
    (∀ t t1, findTask s tid = some t → applyTaskPut t pl = .ok t1 →
      t1.fullClean = .ok () →
      task_resource s tid "PUT" (.obj pl)
          = (.json 200 (.jobj [("task", t_to_dict t1)]), s.saveTask t1) ∧
      t1.id = t.id ∧ t1.project_id = t.project_id ∧
      (pl.lookup "title" = none → t1.title = t.title) ∧
      (pl.lookup "notes" = none → t1.notes = t.notes) ∧
      (pl.lookup "due_date" = none → t1.due_date = t.due_date) ∧
      (pl.lookup "completed" = none → t1.completed = t.completed) ∧
      (pl.lookup "estimate_hours" = none → t1.estimate_hours = t.estimate_hours) ∧
      (∀ u ∈ s.tasks, u.id ≠ t1.id → u ∈ (s.saveTask t1).tasks)) := by
  constructor
  · intro p p1 hfind happly hclean
    obtain ⟨hid, hname, hdesc, hact, hsd, hpr⟩ := applyProjectPut_fields happly
    refine ⟨?_, hid, ?_, ?_, hsd, ?_, hpr, ?_⟩
    · unfold project_resource
      rw [hfind]
      simp only [parse_json, happly, hclean]
      simp
    · intro hn
      rw [hname, hn]
    · intro hn
      rw [hdesc, hn]
    · intro hn
      rw [hact, hn]
    · intro q hq hne
      show q ∈ s.projects.map (fun r => if r.id == p1.id then p1 else r)
      exact List.mem_map.mpr ⟨q, hq, by simp [hne]⟩
  · intro t t1 hfind happly hclean
    obtain ⟨hid, hpid, htitle, hnotes, hcomp, hdd, heh⟩ := applyTaskPut_fields happly
    refine ⟨?_, hid, hpid, ?_, ?_, hdd, ?_, heh, ?_⟩
    · unfold task_resource
      rw [hfind]
      simp only [parse_json, happly, hclean]
      simp
    · intro hn
      rw [htitle, hn]
    · intro hn
      rw [hnotes, hn]
    · intro hn
      rw [hcomp, hn]
    · intro u hu hne
      show u ∈ s.tasks.map (fun r => if r.id == t1.id then t1 else r)
      exact List.mem_map.mpr ⟨u, hu, by simp [hne]⟩

/-- C6 witness: updating the demo project with a priority-only payload and
the demo task with a completed-only payload changes only those fields. -/
theorem c6_put_frame_witness :
    project_resource demoStore 1 "PUT" (.obj [("priority", .jint 5)])
      = (.json 200 (.jobj [("project",
          p_to_dict ⟨1, "Alpha", "", ⟨2024, 1, 1⟩, true, 5⟩)]),
         demoStore.saveProject ⟨1, "Alpha", "", ⟨2024, 1, 1⟩, true, 5⟩) ∧
    (⟨1, "Alpha", "", ⟨2024, 1, 1⟩, true, 5⟩ : Project).name = demoProject.name ∧
    task_resource demoStore 1 "PUT" (.obj [("completed", .jbool true)])
      = (.json 200 (.jobj [("task",
          t_to_dict ⟨1, 1, "Write docs", "", ⟨2024, 2, 1⟩, true, 2⟩)]),
         demoStore.saveTask ⟨1, 1, "Write docs", "", ⟨2024, 2, 1⟩, true, 2⟩) ∧
    (⟨1, 1, "Write docs", "", ⟨2024, 2, 1⟩, true, 2⟩ : Task).title
      = demoTask.title := by
  have hp := (c6_put_frame demoStore 1 1 [("priority", .jint 5)]).1 demoProject
    ⟨1, "Alpha", "", ⟨2024, 1, 1⟩, true, 5⟩ rfl rfl rfl
  have ht := (c6_put_frame demoStore 1 1 [("completed", .jbool true)]).2 demoTask
    ⟨1, 1, "Write docs", "", ⟨2024, 2, 1⟩, true, 2⟩ rfl rfl rfl
  exact ⟨hp.1, hp.2.2.1 rfl, ht.1, ht.2.2.2.1 rfl⟩

/-- C7: serializing a stored project and posting the object minus its `id`
entry as a creation payload succeeds with 201, and the created row agrees
with the original on name, description, start_date, active and priority. -/
theorem c7_roundtrip (s : Store) (p : Project) (hp : p ∈ s.projects)
    (hval : p.start_date.validB = true) :
    (projects_collection s "POST" (.obj (roundtripPayload p))).1
      = .json 201 (.jobj [("project", p_to_dict
          ⟨s.nextProjectId, p.name, p.description, p.start_date,
           p.active, p.priority⟩)]) ∧
    (projects_collection s "POST" (.obj (roundtripPayload p))).2.projects
      = s.projects ++ [⟨s.nextProjectId, p.name, p.description, p.start_date,
                        p.active, p.priority⟩] ∧
    (⟨s.nextProjectId, p.name, p.description, p.start_date, p.active,
      p.priority⟩ : Project).name = p.name ∧
    (⟨s.nextProjectId, p.name, p.description, p.start_date, p.active,
      p.priority⟩ : Project).description = p.description ∧
    (⟨s.nextProjectId, p.name, p.description, p.start_date, p.active,
      p.priority⟩ : Project).start_date = p.start_date ∧
    (⟨s.nextProjectId, p.name, p.description, p.start_date, p.active,
      p.priority⟩ : Project).active = p.active ∧
    (⟨s.nextProjectId, p.name, p.description, p.start_date, p.active,
      p.priority⟩ : Project).priority = p.priority := by
  have hpl : roundtripPayload p
      = [("name", JVal.jstr p.name), ("description", JVal.jstr p.description),
         ("start_date", JVal.jstr p.start_date.isoformat),
         ("active", JVal.jbool p.active), ("priority", JVal.jint p.priority)] :=
    rfl
  have key : pydate ((List.lookup "start_date"
      [("name", JVal.jstr p.name), ("description", JVal.jstr p.description),
       ("start_date", JVal.jstr p.start_date.isoformat),
       ("active", JVal.jbool p.active),
       ("priority", JVal.jint p.priority)]).getD .jnull)
      = .ok p.start_date := by
    have hl : (List.lookup "start_date"
        [("name", JVal.jstr p.name), ("description", JVal.jstr p.description),
         ("start_date", JVal.jstr p.start_date.isoformat),
         ("active", JVal.jbool p.active),
         ("priority", JVal.jint p.priority)]).getD JVal.jnull
        = JVal.jstr p.start_date.isoformat := rfl
    rw [hl, pydate_isoformat _ hval]
  unfold projects_collection
  rw [hpl]
  simp only [parse_json, key]
  exact ⟨rfl, rfl, trivial, trivial, trivial, trivial, trivial⟩

/-- C7 witness: round-tripping the demo project appends an equal row with
the next generated id. -/
theorem c7_roundtrip_witness :
    demoProject ∈ demoStore.projects ∧
    (projects_collection demoStore "POST" (.obj (roundtripPayload demoProject))).1
      = .json 201 (.jobj [("project",
          p_to_dict ⟨2, "Alpha", "", ⟨2024, 1, 1⟩, true, 3⟩)]) :=
  ⟨by decide,
   (c7_roundtrip demoStore demoProject (by decide) (by decide)).1⟩

set_option maxRecDepth 8192 in
/-- C8 counterexample: the claim says a PUT with an empty/malformed body
modifies nothing and returns the unchanged resource.  But the PUT handler
re-runs `full_clean` on the stored record, and the unvalidated create path
can persist records violating the model constraints: on a store holding a
project with a 121-character name, a PUT with a malformed body answers 400,
not the resource. -/
theorem c8_put_empty_body_counterexample :
    (project_resource badStore 1 "PUT" .malformed).1
      = bad_request "name: Ensure this value has at most 120 characters." ∧
    (project_resource badStore 1 "PUT" .malformed).1
      ≠ .json 200 (.jobj [("project", p_to_dict badProject)]) := by
  refine ⟨rfl, ?_⟩
  intro h
  rw [show (project_resource badStore 1 "PUT" ReqBody.malformed).1
      = HResp.json 400 (.jobj [("error",
          .jstr "name: Ensure this value has at most 120 characters.")])
      from rfl] at h
  injection h with h1 h2
  exact absurd h1 (by decide)

/-- C8 (amended): empty and malformed bodies parse to the empty object and
never fail a request by themselves; a POST create with such a body answers
400 "Missing required fields." leaving the store unchanged; a PUT with such
a body modifies nothing and — provided the stored record passes model
validation (which the unvalidated create path does not guarantee) — returns
the unchanged resource with 200. -/
theorem c8_lenient_parse (s : Store) :
    parse_json .empty = [] ∧ parse_json .malformed = [] ∧
    ∀ b, (b = ReqBody.empty ∨ b = ReqBody.malformed) →
      (projects_collection s "POST" b
          = (bad_request "Missing required fields.", s)) ∧
      (∀ pid p, findProject s pid = some p →
        project_tasks_collection s pid "POST" b
          = (bad_request "Missing required fields.", s)) ∧
      (∀ pid p, findProject s pid = some p → p.fullClean = .ok () →
        (s.projects.map Project.id).Nodup →
        project_resource s pid "PUT" b
          = (.json 200 (.jobj [("project", p_to_dict p)]), s)) ∧
      (∀ tid t, findTask s tid = some t → t.fullClean = .ok () →
        (s.tasks.map Task.id).Nodup →
        task_resource s tid "PUT" b
          = (.json 200 (.jobj [("task", t_to_dict t)]), s)) := by
  refine ⟨rfl, rfl, ?_⟩
  intro b hb
  have hpl : parse_json b = [] := by
    rcases hb with h | h <;> rw [h] <;> rfl
  refine ⟨?_, ?_, ?_, ?_⟩
  · unfold projects_collection
    rcases hb with h | h <;> rw [h] <;> rfl
  · intro pid p hfind
    unfold project_tasks_collection
    rw [hfind]
    rcases hb with h | h <;> rw [h] <;> rfl
  · intro pid p hfind hclean hnd
    have hsave := saveProject_self hnd hfind
    unfold project_resource
    rw [hfind]
    have happly : applyProjectPut p (parse_json b) = .ok p := by
      rw [hpl]
      rfl
    simp only [happly, hclean, hsave]
    simp
  · intro tid t hfind hclean hnd
    have hsave := saveTask_self hnd hfind
    unfold task_resource
    rw [hfind]
    have happly : applyTaskPut t (parse_json b) = .ok t := by
      rw [hpl]
      rfl
    simp only [happly, hclean, hsave]
    simp

/-- C8 witness: on the valid demo store, a malformed-body POST 400s without
touching the store and an empty-body PUT echoes the unchanged records. -/
theorem c8_lenient_parse_witness :
    projects_collection demoStore "POST" .malformed
      = (bad_request "Missing required fields.", demoStore) ∧
    project_resource demoStore 1 "PUT" .empty
      = (.json 200 (.jobj [("project", p_to_dict demoProject)]), demoStore) ∧
    task_resource demoStore 1 "PUT" .empty
      = (.json 200 (.jobj [("task", t_to_dict demoTask)]), demoStore) := by
  have h := (c8_lenient_parse demoStore).2.2
  exact ⟨(h .malformed (Or.inr rfl)).1,
    (h .empty (Or.inl rfl)).2.2.1 1 demoProject rfl rfl (by decide),
    (h .empty (Or.inl rfl)).2.2.2 1 demoTask rfl rfl (by decide)⟩

/-- C9: on POST to a project's task collection, the project's existence is
checked first (404 with no write if absent); any created task's
`project_id` is exactly the URL's project id, for every payload; and a
`project_id` key in the payload is never read — prepending one changes
nothing about the request's outcome. -/
theorem c9_task_create_binds_url_project (s : Store) (pid : Nat)
    (pl : List (String × JVal)) (v : JVal) :
    (findProject s pid = none →
      project_tasks_collection s pid "POST" (.obj pl) = (.notFound, s)) ∧
    (∀ st x, project_tasks_collection s pid "POST" (.obj pl)
        = (.json 201 x, st) →
      ∃ t : Task, x = .jobj [("task", t_to_dict t)] ∧ t.project_id = pid ∧
        st.tasks = s.tasks ++ [t]) ∧
    project_tasks_collection s pid "POST" (.obj (("project_id", v) :: pl))
      = project_tasks_collection s pid "POST" (.obj pl) := by
  refine ⟨?_, ?_, ?_⟩
  · intro h
    unfold project_tasks_collection
    rw [h]
  · intro st x h
    cases hf : findProject s pid
    case none =>
      rw [show project_tasks_collection s pid "POST" (.obj pl) = (.notFound, s) by
        unfold project_tasks_collection
        rw [hf]] at h
      have h1 : HResp.notFound = HResp.json 201 x := congrArg Prod.fst h
      exact HResp.noConfusion h1
    case some p =>
      have hred : project_tasks_collection s pid "POST" (.obj pl)
          = (if ¬ ((["title", "notes", "due_date", "completed",
                "estimate_hours"].all fun k => (List.lookup k pl).isSome) = true)
             then (bad_request "Missing required fields.", s)
             else
               match pydate ((List.lookup "due_date" pl).getD .jnull) with
               | .error e => (postCatch e, s)
               | .ok dd =>
                 match pyint ((List.lookup "estimate_hours" pl).getD .jnull) with
                 | .error e => (postCatch e, s)
                 | .ok eh =>
                   (.json 201 (.jobj [("task",
                      t_to_dict (mkNewTask s pid pl dd eh))]),
                    { s with tasks := s.tasks ++ [mkNewTask s pid pl dd eh],
                             nextTaskId := s.nextTaskId + 1 })) := by
        unfold project_tasks_collection
        rw [hf]
        exact rfl
      rw [hred] at h
      split at h
      · have h1 : bad_request "Missing required fields." = HResp.json 201 x :=
          congrArg Prod.fst h
        simp [bad_request] at h1
      · split at h
        case h_1 e heq =>
          have h1 : postCatch e = HResp.json 201 x := congrArg Prod.fst h
          cases e <;> simp [postCatch, bad_request] at h1
        case h_2 dd hdd =>
          split at h
          case h_1 e heq =>
            have h1 : postCatch e = HResp.json 201 x := congrArg Prod.fst h
            cases e <;> simp [postCatch, bad_request] at h1
          case h_2 eh heh =>
            injection h with h1 h2
            injection h1 with _ h3
            refine ⟨mkNewTask s pid pl dd eh, h3.symm, rfl, ?_⟩
            rw [← h2]
  · unfold project_tasks_collection
    cases hf : findProject s pid
    case none => rfl
    case some p =>
      simp only [parse_json]
      have l1 : List.lookup "title" (("project_id", v) :: pl)
          = List.lookup "title" pl := rfl
      have l2 : List.lookup "notes" (("project_id", v) :: pl)
          = List.lookup "notes" pl := rfl
      have l3 : List.lookup "due_date" (("project_id", v) :: pl)
          = List.lookup "due_date" pl := rfl
      have l4 : List.lookup "completed" (("project_id", v) :: pl)
          = List.lookup "completed" pl := rfl
      have l5 : List.lookup "estimate_hours" (("project_id", v) :: pl)
          = List.lookup "estimate_hours" pl := rfl
      simp only [List.all_cons, List.all_nil, l1, l2, l3, l4, l5]

/-- C9 witness: a POST to a missing project 404s without writing; a POST to
the demo project with a payload carrying a contrary `project_id` key still
creates the task under project 1. -/
theorem c9_task_create_binds_url_project_witness :
    project_tasks_collection emptyStore 1 "POST" (.obj []) = (.notFound, emptyStore) ∧
    (∃ t : Task, (JVal.jobj [("task", t_to_dict ⟨2, 1, "T2", "", ⟨2024, 3, 1⟩, false, 4⟩)])
        = .jobj [("task", t_to_dict t)] ∧ t.project_id = 1 ∧
      ({ demoStore with
          tasks := demoStore.tasks ++ [⟨2, 1, "T2", "", ⟨2024, 3, 1⟩, false, 4⟩],
          nextTaskId := 3 } : Store).tasks = demoStore.tasks ++ [t]) ∧
    project_tasks_collection demoStore 1 "POST" (.obj
        (("project_id", .jint 77) ::
         [("title", .jstr "T2"), ("notes", .jstr ""),
          ("due_date", .jstr "2024-03-01"), ("completed", .jbool false),
          ("estimate_hours", .jint 4)]))
      = project_tasks_collection demoStore 1 "POST" (.obj
         [("title", .jstr "T2"), ("notes", .jstr ""),
          ("due_date", .jstr "2024-03-01"), ("completed", .jbool false),
          ("estimate_hours", .jint 4)]) :=
  ⟨(c9_task_create_binds_url_project emptyStore 1 [] .jnull).1 rfl,
   (c9_task_create_binds_url_project demoStore 1
      [("title", .jstr "T2"), ("notes", .jstr ""),
       ("due_date", .jstr "2024-03-01"), ("completed", .jbool false),
       ("estimate_hours", .jint 4)] .jnull).2.1 _ _ rfl,
   (c9_task_create_binds_url_project demoStore 1
      [("title", .jstr "T2"), ("notes", .jstr ""),
       ("due_date", .jstr "2024-03-01"), ("completed", .jbool false),
       ("estimate_hours", .jint 4)] (.jint 77)).2.2⟩

/-- C10: on the task route the existence check runs before method dispatch:
an unknown task id answers 404 whatever the method; an existing task with a
method other than PUT/DELETE (GET included) answers 405 with allowed list
["PUT", "DELETE"]. -/
theorem c10_task_dispatch (s : Store) (tid : Nat) (m : String) (b : ReqBody) :
    (findTask s tid = none → task_resource s tid m b = (.notFound, s)) ∧
    (∀ t, findTask s tid = some t → m ≠ "PUT" → m ≠ "DELETE" →
      task_resource s tid m b = (.notAllowed ["PUT", "DELETE"], s)) ∧
    HResp.notFound.status = 404 ∧
    (HResp.notAllowed ["PUT", "DELETE"]).status = 405 := by
  refine ⟨?_, ?_, rfl, rfl⟩
  · intro h
    unfold task_resource
    rw [h]
  · intro t ht h1 h2
    unfold task_resource
    rw [ht]
    simp only [if_neg h1, if_neg h2]

/-- C10 witness: a GET on a missing task id is a 404; a GET on the existing
task is a 405 with allowed list ["PUT", "DELETE"]. -/
theorem c10_task_dispatch_witness :
    task_resource demoStore 99 "GET" .empty = (.notFound, demoStore) ∧
    task_resource demoStore 1 "GET" .empty
      = (.notAllowed ["PUT", "DELETE"], demoStore) :=
  ⟨(c10_task_dispatch demoStore 99 "GET" .empty).1 rfl,
   (c10_task_dispatch demoStore 1 "GET" .empty).2.1 demoTask rfl
     (by decide) (by decide)⟩

end ICW
